import Mathlib

/-!
Shallow embedding of the Shopify legacy-customer-accounts checker
(src/lib/checker.ts, src/check.js, src/app/api/check/route.ts).

JavaScript string primitives (trim, split on the regex [\n,]+, includes,
startsWith, the trailing-slash replace) are modelled as executable functions
over the character list of a Lean String.  The HTTP transport (fetch with
manual redirects), URL resolution (new URL(location, base).href) and hostname
extraction (new URL(u).hostname) are external effectful collaborators: they
are modelled as Except-valued fields of an Env record, where an Except.error
outcome models a thrown JavaScript exception carrying its message, mirroring
the try/catch boundary of checkStore.
-/

namespace ShopifyChecker

/-- Models JavaScript body.includes(pat): case-sensitive substring test. -/
def containsSubstr (s pat : String) : Bool :=
  decide (pat.data <:+: s.data)

/-- Models JavaScript s.startsWith(pat). -/
def startsWithStr (s pat : String) : Bool :=
  decide (pat.data <+: s.data)

/-- Models JavaScript s.trim(): strip leading and trailing whitespace. -/
def jsTrim (s : String) : String :=
  ⟨((s.data.dropWhile Char.isWhitespace).reverse.dropWhile Char.isWhitespace).reverse⟩

/-- Models the JavaScript url.replace of the regex of one-or-more trailing
slashes with the empty string: remove the maximal run of trailing slashes. -/
def stripTrailingSlashes (s : String) : String :=
  ⟨(s.data.reverse.dropWhile (fun c => c = '/')).reverse⟩

/-- Character-list splitter underlying the JavaScript input.split on the
regex class of newline and comma.  Splitting at every separator character
produces extra empty pieces where the regex quantifier would collapse runs of
separators; those empty pieces are discarded by normalizeUrl downstream, so
parseUrls computes the same list either way. -/
def splitCore (sep : Char → Bool) : List Char → List (List Char)
  | [] => [[]]
  | c :: rest =>
    let r := splitCore sep rest
    if sep c then [] :: r
    else
      match r with
      | [] => [[c]]
      | p :: ps => (c :: p) :: ps

/-- Models input.split of the newline-or-comma separator in parseUrls. -/
def splitUrls (s : String) : List String :=
  (splitCore (fun c => c = '\n' || c = ',') s.data).map (fun l => ⟨l⟩)

/-- The AccountType union of checker.ts. -/
inductive AccountType
  | new
  | legacy
  | passwordProtected
  | notShopify
  | unknown
  | error
deriving DecidableEq, Repr

/-- The CheckResult record of checker.ts; optional fields are Options. -/
structure CheckResult where
  url : String
  type : AccountType
  status : Option Nat
  redirect : Option String
  note : Option String
  error : Option String
deriving DecidableEq, Repr

/-- normalizeUrl of checker.ts: trim, drop empties and comment lines,
prefix https when the scheme is missing, strip trailing slashes. -/
def normalizeUrl (input : String) : Option String :=
  let url := jsTrim input
  if url = "" then none
  else if startsWithStr url "#" = true then none
  else
    let url2 := if startsWithStr url "http" = true then url else "https://" ++ url
    some (stripTrailingSlashes url2)

/-- NEW_ACCOUNT_REDIRECT_PATTERNS of checker.ts. -/
def NEW_ACCOUNT_REDIRECT_PATTERNS : List String :=
  ["shopify.com/authentication", "/auth/login", "accounts.shopify.com"]

/-- isNewAccountRedirect of checker.ts. -/
def isNewAccountRedirect (url : String) : Bool :=
  NEW_ACCOUNT_REDIRECT_PATTERNS.any (fun p => containsSubstr url p)

/-- newAccountSignals of classifyFromBody. -/
def newAccountSignals : List String :=
  ["shopify.com/authentication", "accounts.shopify.com", "init-customer-accounts",
   "initCustomerAccounts", "init-shop-for-new-customer-accounts", "shopify-login",
   "SignInWithShop"]

/-- legacySignals of classifyFromBody. -/
def legacySignals : List String :=
  ["customer[password]", "customer_login", "name=\"customer[email]\"",
   "action=\"/account/login\"", "action=\"/account\""]

/-- hasNewSignal of classifyFromBody. -/
def hasNewSignal (body : String) : Bool :=
  newAccountSignals.any (fun signal => containsSubstr body signal)

/-- hasLegacySignal of classifyFromBody. -/
def hasLegacySignal (body : String) : Bool :=
  legacySignals.any (fun signal => containsSubstr body signal)

/-- hasPasswordField of classifyFromBody. -/
def hasPasswordField (body : String) : Bool :=
  containsSubstr body "type=\"password\"" && containsSubstr body "customer"

/-- classifyFromBody of checker.ts: the ordered first-match-wins rule list. -/
def classifyFromBody (storeUrl body : String) (status : Nat) : CheckResult :=
  if hasNewSignal body = true ∧ hasPasswordField body = false then
    ⟨storeUrl, AccountType.new, some status, none, none, none⟩
  else if hasPasswordField body = true ∧ hasLegacySignal body = true then
    ⟨storeUrl, AccountType.legacy, some status, none, none, none⟩
  else if hasNewSignal body = true then
    ⟨storeUrl, AccountType.new, some status, none, none, none⟩
  else if hasPasswordField body = true then
    ⟨storeUrl, AccountType.legacy, some status, none, none, none⟩
  else if containsSubstr body "password-page" = true ∨
      containsSubstr body "storefront-password" = true then
    ⟨storeUrl, AccountType.passwordProtected, some status, none,
      some "Store is password-protected (not yet live)", none⟩
  else if containsSubstr body "Shopify" = false ∧ containsSubstr body "shopify" = false then
    ⟨storeUrl, AccountType.notShopify, some status, none,
      some "Does not appear to be a Shopify store", none⟩
  else
    ⟨storeUrl, AccountType.unknown, some status, none,
      some "Could not determine account type from page content", none⟩

/-- One HTTP response as observed by checkStore: status, the location header
(empty string when the header is absent, as in the JavaScript default), the
three fingerprint headers, and the body, whose read may throw. -/
structure Response where
  status : Nat
  location : String
  poweredBy : String
  shopId : String
  serverTiming : String
  bodyText : Except String String

/-- The effectful environment of checkStore.  fetch is indexed by the
iteration counter of the redirect loop and the requested URL, so each call in
a run may behave differently; an Except.error models a thrown exception. -/
structure Env where
  fetch : Nat → String → Except String Response
  resolveUrl : String → String → Except String String
  hostname : String → Except String String

/-- The header fingerprint test of the 200 branch of checkStore. -/
def isShopifyHeaders (resp : Response) : Bool :=
  containsSubstr resp.poweredBy "Shopify" || decide (resp.shopId ≠ "") ||
  containsSubstr resp.serverTiming "shopify" || containsSubstr resp.serverTiming "pageType"

/-- The tail of one loop iteration of checkStore after the redirect and 406
checks have fallen through: the 200, 404 and catch-all status branches. -/
def checkStoreFinal (storeUrl currentUrl : String) (resp : Response) : Except String CheckResult :=
  if resp.status = 200 then
    match resp.bodyText with
    | Except.error msg => Except.error msg
    | Except.ok body =>
      if isShopifyHeaders resp = false ∧ containsSubstr body "Shopify" = false ∧
          containsSubstr body "myshopify" = false then
        Except.ok ⟨storeUrl, AccountType.notShopify, some resp.status, none,
          some "Does not appear to be a Shopify store", none⟩
      else
        Except.ok (classifyFromBody storeUrl body resp.status)
  else if resp.status = 404 then
    Except.ok ⟨storeUrl, AccountType.notShopify, some resp.status, none,
      some "No /account/login page found — likely not a Shopify store", none⟩
  else
    Except.ok ⟨storeUrl, AccountType.unknown, some resp.status, none,
      some ("Unexpected status " ++ toString resp.status ++ " at " ++ currentUrl), none⟩

/-- The redirect loop of checkStore.  i is the iteration counter (the first
argument the code passes to fetch is the current URL; the counter lets the
transport behave differently per call), fuel counts the remaining iterations
(maxRedirects minus i), and lastStatus is the last observed status. -/
def checkStoreGo (env : Env) (storeUrl loginU : String) :
    Nat → Nat → String → Nat → Except String CheckResult
  | _, 0, _, lastStatus =>
    Except.ok ⟨storeUrl, AccountType.unknown, some lastStatus, none,
      some "Too many redirects", none⟩
  | i, fuel + 1, currentUrl, _ =>
    match env.fetch i currentUrl with
    | Except.error msg => Except.error msg
    | Except.ok resp =>
      if resp.location ≠ "" ∧ isNewAccountRedirect resp.location = true then
        Except.ok ⟨storeUrl, AccountType.new, some resp.status, some resp.location,
          none, none⟩
      else if 300 ≤ resp.status ∧ resp.status < 400 ∧ resp.location ≠ "" then
        match (if startsWithStr resp.location "http" = true then Except.ok resp.location
               else env.resolveUrl resp.location currentUrl) with
        | Except.error msg => Except.error msg
        | Except.ok nextUrl => checkStoreGo env storeUrl loginU (i + 1) fuel nextUrl resp.status
      else if resp.status = 406 ∧ currentUrl ≠ loginU then
        match env.hostname currentUrl with
        | Except.error msg => Except.error msg
        | Except.ok redirectHost =>
          match env.hostname storeUrl with
          | Except.error msg => Except.error msg
          | Except.ok storeHost =>
            if redirectHost ≠ storeHost then
              Except.ok ⟨storeUrl, AccountType.new, some resp.status, none,
                some ("Redirected to custom account domain: " ++ redirectHost), none⟩
            else
              checkStoreFinal storeUrl currentUrl resp
      else
        checkStoreFinal storeUrl currentUrl resp

/-- The login URL checkStore probes first. -/
def loginUrlOf (storeUrl : String) : String :=
  storeUrl ++ "/account/login"

/-- The error CheckResult built by the catch clause of checkStore. -/
def errorResult (storeUrl msg : String) : CheckResult :=
  ⟨storeUrl, AccountType.error, none, none, none, some msg⟩

/-- checkStore of checker.ts: run the redirect loop with maxRedirects 6 and
catch every thrown exception into a type error result. -/
def checkStore (env : Env) (storeUrl : String) : CheckResult :=
  match checkStoreGo env storeUrl (loginUrlOf storeUrl) 0 6 (loginUrlOf storeUrl) 0 with
  | Except.ok r => r
  | Except.error msg => errorResult storeUrl msg

/-- parseUrls of checker.ts: split on newlines and commas, normalize each
piece, drop the pieces normalizeUrl rejects. -/
def parseUrls (input : String) : List String :=
  (splitUrls input).filterMap normalizeUrl

/-- The POST handler of src/app/api/check/route.ts, as the function from the
parsed urls array of the request to what it emits: either a 400 status with
an error payload, or the ordered list of streamed CheckResults.  The handler
flat-maps parseUrls over the raw url strings, caps the list at 100, and
classifies each URL in order. -/
def postResponse (env : Env) (rawUrls : List String) : Except (Nat × String) (List CheckResult) :=
  if rawUrls = [] then Except.error (400, "No URLs provided")
  else if (rawUrls.flatMap parseUrls).take 100 = [] then
    Except.error (400, "No valid URLs found")
  else Except.ok (((rawUrls.flatMap parseUrls).take 100).map (checkStore env))

def envThrow : Env :=
  ⟨fun _ _ => Except.error "getaddrinfo ENOTFOUND mistral-silk.invalid",
   fun l _ => Except.ok l, fun u => Except.ok u⟩

def resp302signal : Response :=
  ⟨302, "https://accounts.shopify.com/store-login", "", "", "", Except.ok ""⟩

def env302 : Env :=
  ⟨fun _ _ => Except.ok resp302signal, fun l _ => Except.ok l, fun u => Except.ok u⟩

def resp404 : Response :=
  ⟨404, "", "", "", "", Except.ok "<html>arbitrary body</html>"⟩

def env404 : Env :=
  ⟨fun _ _ => Except.ok resp404, fun l _ => Except.ok l, fun u => Except.ok u⟩

def resp406 : Response :=
  ⟨406, "", "", "", "", Except.ok ""⟩

def env406 : Env :=
  ⟨fun _ _ => Except.ok resp406, fun l _ => Except.ok l,
   fun u => Except.ok (if u = "https://shop.polder-ceramics.example/login" then "shop.polder-ceramics.example" else "polder-ceramics.example")⟩

def ResultInv (storeUrl : String) (r : CheckResult) : Prop :=
  r.url = storeUrl ∧ r.type ≠ AccountType.error ∧ r.error = none ∧ r.status ≠ none ∧
  (r.redirect ≠ none → r.type = AccountType.new ∧ r.note = none)

def resp302plain : Response :=
  ⟨302, "https://hollow-pines.example/next", "", "", "", Except.ok ""⟩

def envLoop : Env :=
  ⟨fun _ _ => Except.ok resp302plain, fun l _ => Except.ok l, fun u => Except.ok u⟩

lemma strip_keeps_http (s : String) (h : startsWithStr s "http" = true) :
    startsWithStr (stripTrailingSlashes s) "http" = true ∧ stripTrailingSlashes s ≠ "" := by
  have hpre : "http".data <+: s.data := decide_eq_true_iff.mp h
  obtain ⟨t, ht⟩ := hpre
  have hdata : ∃ rest, (stripTrailingSlashes s).data = "http".data ++ rest := by
    have h1 : s.data.reverse = t.reverse ++ ['p', 't', 't', 'h'] := by
      rw [← ht, List.reverse_append]
      rfl
    have h2 : (stripTrailingSlashes s).data =
        ((t.reverse ++ ['p', 't', 't', 'h']).dropWhile (fun c => decide (c = '/'))).reverse := by
      simp only [stripTrailingSlashes, h1]
    rw [List.dropWhile_append] at h2
    by_cases he : ((t.reverse.dropWhile (fun c => decide (c = '/'))).isEmpty = true)
    · rw [if_pos he] at h2
      refine ⟨[], ?_⟩
      simpa using h2
    · rw [if_neg he] at h2
      refine ⟨(t.reverse.dropWhile (fun c => decide (c = '/'))).reverse, ?_⟩
      rw [h2, List.reverse_append]
      rfl
  obtain ⟨rest, hrest⟩ := hdata
  constructor
  · exact decide_eq_true_iff.mpr ⟨rest, hrest.symm⟩
  · intro hcon
    rw [hcon] at hrest
    simp at hrest
  
lemma normalizeUrl_some_props (s u : String) (h : normalizeUrl s = some u) :
    u ≠ "" ∧ startsWithStr u "http" = true := by
  unfold normalizeUrl at h
  by_cases h1 : jsTrim s = ""
  · rw [if_pos h1] at h; exact absurd h (by simp)
  · rw [if_neg h1] at h
    by_cases h2 : startsWithStr (jsTrim s) "#" = true
    · rw [if_pos h2] at h; exact absurd h (by simp)
    · rw [if_neg h2] at h
      have hu : u = stripTrailingSlashes
          (if startsWithStr (jsTrim s) "http" = true then jsTrim s
           else "https://" ++ jsTrim s) := by
        exact (Option.some.inj h).symm
      by_cases h3 : startsWithStr (jsTrim s) "http" = true
      · rw [if_pos h3] at hu
        subst hu
        exact ⟨(strip_keeps_http _ h3).2, (strip_keeps_http _ h3).1⟩
      · rw [if_neg h3] at hu
        subst hu
        have hpre : startsWithStr ("https://" ++ jsTrim s) "http" = true := by
          apply decide_eq_true_iff.mpr
          rw [String.data_append]
          have : ("https://" : String).data = "http".data ++ "s://".data := rfl
          rw [this, List.append_assoc]
          exact List.prefix_append _ _
        exact ⟨(strip_keeps_http _ hpre).2, (strip_keeps_http _ hpre).1⟩

lemma normalizeUrl_none_of (s : String)
    (h : jsTrim s = "" ∨ startsWithStr (jsTrim s) "#" = true) : normalizeUrl s = none := by
  unfold normalizeUrl
  rcases h with h | h
  · rw [if_pos h]
  · by_cases h1 : jsTrim s = ""
    · rw [if_pos h1]
    · rw [if_neg h1, if_pos h]

/-- Claim C8: parseUrls splits its input on newlines and commas, trims each
piece, drops pieces that are empty or start with a hash after trimming,
prefixes https when a piece does not already start with http, and strips
trailing slashes; hence every element of the output is non-empty and starts
with http, and input consisting only of blank and comment pieces yields the
empty list rather than an error. -/
theorem parseUrls_normalization :
    ∀ input : String,
      (∀ u ∈ parseUrls input, u ≠ "" ∧ startsWithStr u "http" = true) ∧
      ((∀ piece ∈ splitUrls input,
          jsTrim piece = "" ∨ startsWithStr (jsTrim piece) "#" = true) →
        parseUrls input = []) := by
  intro input
  constructor
  · intro u hu
    obtain ⟨piece, _, hp⟩ := List.mem_filterMap.mp hu
    exact normalizeUrl_some_props piece u hp
  · intro hall
    exact List.filterMap_eq_nil_iff.mpr fun piece hp => normalizeUrl_none_of piece (hall piece hp)

theorem parseUrls_normalization_witness :
    parseUrls "# only a comment\n   \n,," = [] ∧
    ("https://veloria-atelier.com" ≠ "" ∧
      startsWithStr "https://veloria-atelier.com" "http" = true) :=
  ⟨(parseUrls_normalization "# only a comment\n   \n,,").2 (by decide),
   (parseUrls_normalization "veloria-atelier.com/").1 "https://veloria-atelier.com" (by decide)⟩

/-- Claim C2: classifyFromBody applies its seven rules in first-match-wins order
over case-sensitive substring checks: new-signal without password field
gives new; password field with a legacy signal gives legacy; a remaining
new-signal gives new; a remaining password field gives legacy; password-page
or storefront-password gives password-protected; a body containing neither
Shopify nor shopify gives not-shopify; otherwise unknown.  In particular a
body with a new-account signal, the password field and a legacy signal is
classified legacy, while the same body without the legacy signal is
classified new. -/
theorem classifyFromBody_rule_order :
    (∀ (u body : String) (s : Nat),
      (hasNewSignal body = true ∧ hasPasswordField body = false →
        classifyFromBody u body s = ⟨u, AccountType.new, some s, none, none, none⟩) ∧
      (hasPasswordField body = true ∧ hasLegacySignal body = true →
        classifyFromBody u body s = ⟨u, AccountType.legacy, some s, none, none, none⟩) ∧
      (¬(hasPasswordField body = true ∧ hasLegacySignal body = true) →
        hasNewSignal body = true →
        classifyFromBody u body s = ⟨u, AccountType.new, some s, none, none, none⟩) ∧
      (hasNewSignal body = false → ¬(hasPasswordField body = true ∧ hasLegacySignal body = true) →
        hasPasswordField body = true →
        classifyFromBody u body s = ⟨u, AccountType.legacy, some s, none, none, none⟩) ∧
      (hasNewSignal body = false → hasPasswordField body = false →
        (containsSubstr body "password-page" = true ∨
          containsSubstr body "storefront-password" = true) →
        classifyFromBody u body s = ⟨u, AccountType.passwordProtected, some s, none,
          some "Store is password-protected (not yet live)", none⟩) ∧
      (hasNewSignal body = false → hasPasswordField body = false →
        containsSubstr body "password-page" = false →
        containsSubstr body "storefront-password" = false →
        containsSubstr body "Shopify" = false → containsSubstr body "shopify" = false →
        classifyFromBody u body s = ⟨u, AccountType.notShopify, some s, none,
          some "Does not appear to be a Shopify store", none⟩) ∧
      (hasNewSignal body = false → hasPasswordField body = false →
        containsSubstr body "password-page" = false →
        containsSubstr body "storefront-password" = false →
        ¬(containsSubstr body "Shopify" = false ∧ containsSubstr body "shopify" = false) →
        classifyFromBody u body s = ⟨u, AccountType.unknown, some s, none,
          some "Could not determine account type from page content", none⟩)) ∧
    classifyFromBody "https://a.example"
      "SignInWithShop type=\"password\" customer customer_login" 200 =
      ⟨"https://a.example", AccountType.legacy, some 200, none, none, none⟩ ∧
    classifyFromBody "https://a.example" "SignInWithShop type=\"password\" customer" 200 =
      ⟨"https://a.example", AccountType.new, some 200, none, none, none⟩ := by
  refine ⟨fun u body s => ?_, by decide, by decide⟩
  unfold classifyFromBody
  refine ⟨fun h => ?_, fun h => ?_, fun hn2 h => ?_, fun h1 h2 h3 => ?_,
    fun h1 h2 h3 => ?_, fun h1 h2 h3 h4 h5 h6 => ?_, fun h1 h2 h3 h4 h5 => ?_⟩
  · rw [if_pos h]
  · rw [if_neg (by simp [h.1]), if_pos h]
  · by_cases hp : hasPasswordField body = true
    · rw [if_neg (by simp [hp]), if_neg hn2, if_pos h]
    · have hp2 : hasPasswordField body = false := by
        cases hpv : hasPasswordField body
        · rfl
        · exact absurd hpv hp
      rw [if_pos ⟨h, hp2⟩]
  · rw [if_neg (by simp [h1]), if_neg h2, if_neg (by simp [h1]), if_pos h3]
  · rw [if_neg (by simp [h1]), if_neg (by simp [h2]), if_neg (by simp [h1]),
      if_neg (by simp [h2]), if_pos h3]
  · rw [if_neg (by simp [h1]), if_neg (by simp [h2]), if_neg (by simp [h1]),
      if_neg (by simp [h2]), if_neg (by simp [h3, h4]), if_pos ⟨h5, h6⟩]
  · rw [if_neg (by simp [h1]), if_neg (by simp [h2]), if_neg (by simp [h1]),
      if_neg (by simp [h2]), if_neg (by simp [h3, h4]), if_neg h5]

theorem classifyFromBody_rule_order_witness :
    classifyFromBody "https://b.example" "password-page something shopify" 200 =
      ⟨"https://b.example", AccountType.passwordProtected, some 200, none,
        some "Store is password-protected (not yet live)", none⟩ :=
  ((classifyFromBody_rule_order.1 "https://b.example"
      "password-page something shopify" 200).2.2.2.2.1 (by decide) (by decide)
    (Or.inl (by decide)))

lemma go_fetch_throw (env : Env) (storeUrl loginU : String) (i fuel : Nat)
    (currentUrl : String) (lastStatus : Nat) (msg : String)
    (h : env.fetch i currentUrl = Except.error msg) :
    checkStoreGo env storeUrl loginU i (fuel + 1) currentUrl lastStatus = Except.error msg := by
  simp only [checkStoreGo]
  rw [h]

lemma go_step_signal (env : Env) (storeUrl loginU : String) (i fuel : Nat)
    (currentUrl : String) (lastStatus : Nat) (resp : Response)
    (hf : env.fetch i currentUrl = Except.ok resp)
    (hl : resp.location ≠ "") (hs : isNewAccountRedirect resp.location = true) :
    checkStoreGo env storeUrl loginU i (fuel + 1) currentUrl lastStatus =
      Except.ok ⟨storeUrl, AccountType.new, some resp.status, some resp.location,
        none, none⟩ := by
  simp only [checkStoreGo, hf]
  rw [if_pos ⟨hl, hs⟩]

lemma go_step_redirect (env : Env) (storeUrl loginU : String) (i fuel : Nat)
    (currentUrl : String) (lastStatus : Nat) (resp : Response)
    (hf : env.fetch i currentUrl = Except.ok resp)
    (hl : resp.location ≠ "") (hs : isNewAccountRedirect resp.location = false)
    (h3 : 300 ≤ resp.status) (h4 : resp.status < 400)
    (hh : startsWithStr resp.location "http" = true) :
    checkStoreGo env storeUrl loginU i (fuel + 1) currentUrl lastStatus =
      checkStoreGo env storeUrl loginU (i + 1) fuel resp.location resp.status := by
  simp only [checkStoreGo, hf]
  rw [if_neg (by simp [hs]), if_pos ⟨h3, h4, hl⟩, if_pos hh]

/-- Claim C1: checkStore always returns a CheckResult and never throws (the
embedding is a total function); whenever the probe computation raises an
exception anywhere (modelled by the Except.error outcome of the redirect
loop), the returned result is the error record whose error field is exactly
the exception message, and in particular a throwing first fetch produces
that error result directly, with no retry. -/
theorem checkStore_catches_exceptions :
    ∀ (env : Env) (storeUrl msg : String),
      (checkStoreGo env storeUrl (loginUrlOf storeUrl) 0 6 (loginUrlOf storeUrl) 0 =
          Except.error msg →
        checkStore env storeUrl = errorResult storeUrl msg) ∧
      (env.fetch 0 (loginUrlOf storeUrl) = Except.error msg →
        checkStore env storeUrl = errorResult storeUrl msg) := by
  intro env storeUrl msg
  constructor
  · intro h
    unfold checkStore
    rw [h]
  · intro h
    unfold checkStore
    rw [go_fetch_throw env storeUrl (loginUrlOf storeUrl) 0 5 (loginUrlOf storeUrl) 0 msg h]

theorem checkStore_catches_exceptions_witness :
    checkStore envThrow "https://mistral-silk.invalid" =
      errorResult "https://mistral-silk.invalid" "getaddrinfo ENOTFOUND mistral-silk.invalid" :=
  (checkStore_catches_exceptions envThrow "https://mistral-silk.invalid"
    "getaddrinfo ENOTFOUND mistral-silk.invalid").2 rfl

/-- Claim C3: on every response in the redirect loop the Location header is
inspected before the status code: whenever a non-empty Location matches one
of the new-account signal substrings, the loop immediately returns type new
carrying that status and the raw Location string, for every status code, and
checkStore itself does so on the first response. -/
theorem location_signal_checked_first :
    ∀ (env : Env) (storeUrl : String) (i fuel : Nat) (currentUrl : String)
      (lastStatus : Nat) (resp : Response),
      resp.location ≠ "" → isNewAccountRedirect resp.location = true →
      (env.fetch i currentUrl = Except.ok resp →
        checkStoreGo env storeUrl (loginUrlOf storeUrl) i (fuel + 1) currentUrl lastStatus =
          Except.ok ⟨storeUrl, AccountType.new, some resp.status, some resp.location,
            none, none⟩) ∧
      (env.fetch 0 (loginUrlOf storeUrl) = Except.ok resp →
        checkStore env storeUrl =
          ⟨storeUrl, AccountType.new, some resp.status, some resp.location, none, none⟩) := by
  intro env storeUrl i fuel currentUrl lastStatus resp hl hs
  constructor
  · intro hf
    exact go_step_signal env storeUrl (loginUrlOf storeUrl) i fuel currentUrl lastStatus resp hf hl hs
  · intro hf
    unfold checkStore
    rw [go_step_signal env storeUrl (loginUrlOf storeUrl) 0 5 (loginUrlOf storeUrl) 0 resp hf hl hs]

theorem location_signal_checked_first_witness :
    checkStore env302 "https://lumen-candles.example" =
      ⟨"https://lumen-candles.example", AccountType.new, some 302,
        some "https://accounts.shopify.com/store-login", none, none⟩ :=
  (location_signal_checked_first env302 "https://lumen-candles.example" 0 0
    (loginUrlOf "https://lumen-candles.example") 0 resp302signal
    (by decide) (by decide)).2 rfl

/-- Claim C7: a 404 response whose Location header carries no new-account signal
makes the loop return type not-shopify with the explanatory note, with
status 404, independently of the response body: two 404 responses differing
only in body text produce identical results, because the body is never read. -/
theorem status404_ignores_body :
    ∀ (env1 env2 : Env) (storeUrl : String) (i fuel : Nat) (currentUrl : String)
      (lastStatus : Nat) (resp : Response)
      (loc pb sid stg : String) (b1 b2 : Except String String),
      (env1.fetch i currentUrl = Except.ok resp → resp.status = 404 →
        (resp.location = "" ∨ isNewAccountRedirect resp.location = false) →
        checkStoreGo env1 storeUrl (loginUrlOf storeUrl) i (fuel + 1) currentUrl lastStatus =
          Except.ok ⟨storeUrl, AccountType.notShopify, some 404, none,
            some "No /account/login page found — likely not a Shopify store", none⟩) ∧
      (env1.fetch i currentUrl = Except.ok ⟨404, loc, pb, sid, stg, b1⟩ →
        env2.fetch i currentUrl = Except.ok ⟨404, loc, pb, sid, stg, b2⟩ →
        (loc = "" ∨ isNewAccountRedirect loc = false) →
        checkStoreGo env1 storeUrl (loginUrlOf storeUrl) i (fuel + 1) currentUrl lastStatus =
          checkStoreGo env2 storeUrl (loginUrlOf storeUrl) i (fuel + 1) currentUrl lastStatus) := by
  have main : ∀ (env : Env) (storeUrl : String) (i fuel : Nat) (currentUrl : String)
      (lastStatus : Nat) (resp : Response),
      env.fetch i currentUrl = Except.ok resp → resp.status = 404 →
      (resp.location = "" ∨ isNewAccountRedirect resp.location = false) →
      checkStoreGo env storeUrl (loginUrlOf storeUrl) i (fuel + 1) currentUrl lastStatus =
        Except.ok ⟨storeUrl, AccountType.notShopify, some 404, none,
          some "No /account/login page found — likely not a Shopify store", none⟩ := by
    intro env storeUrl i fuel currentUrl lastStatus resp hf hst hloc
    simp only [checkStoreGo, hf]
    rw [if_neg (by rcases hloc with h | h <;> simp [h])]
    rw [if_neg (by rw [hst]; intro hc; omega)]
    rw [if_neg (by rw [hst]; intro hc; exact absurd hc.1 (by norm_num))]
    unfold checkStoreFinal
    rw [hst]
    rw [if_neg (by norm_num), if_pos rfl]
  intro env1 env2 storeUrl i fuel currentUrl lastStatus resp loc pb sid stg b1 b2
  constructor
  · exact main env1 storeUrl i fuel currentUrl lastStatus resp
  · intro h1 h2 hloc
    rw [main env1 storeUrl i fuel currentUrl lastStatus _ h1 rfl hloc,
      main env2 storeUrl i fuel currentUrl lastStatus _ h2 rfl hloc]

theorem status404_ignores_body_witness :
    checkStore env404 "https://attic-finds.example" =
      ⟨"https://attic-finds.example", AccountType.notShopify, some 404, none,
        some "No /account/login page found — likely not a Shopify store", none⟩ := by
  unfold checkStore
  rw [(status404_ignores_body env404 env404 "https://attic-finds.example" 0 5
      (loginUrlOf "https://attic-finds.example") 0 resp404 "" "" "" ""
      (Except.ok "") (Except.ok "")).1 rfl rfl (Or.inl rfl)]

/-- Claim C6: on a 406 response with no new-account Location signal, if the
current candidate URL differs from the original login URL and its hostname
differs from the hostname of the store URL, the loop returns type new with a
note naming that hostname as the custom account domain; if the loop is still
at the login URL, or the two hostnames agree, the 406 falls through to the
catch-all and yields type unknown with a note containing status 406 and the
URL at which it occurred. -/
theorem status406_custom_domain_branch :
    ∀ (env : Env) (storeUrl : String) (i fuel : Nat) (currentUrl : String)
      (lastStatus : Nat) (resp : Response) (redirectHost storeHost commonHost : String),
      env.fetch i currentUrl = Except.ok resp → resp.status = 406 →
      (resp.location = "" ∨ isNewAccountRedirect resp.location = false) →
      (currentUrl ≠ loginUrlOf storeUrl →
        env.hostname currentUrl = Except.ok redirectHost →
        env.hostname storeUrl = Except.ok storeHost →
        redirectHost ≠ storeHost →
        checkStoreGo env storeUrl (loginUrlOf storeUrl) i (fuel + 1) currentUrl lastStatus =
          Except.ok ⟨storeUrl, AccountType.new, some 406, none,
            some ("Redirected to custom account domain: " ++ redirectHost), none⟩) ∧
      (currentUrl = loginUrlOf storeUrl →
        checkStoreGo env storeUrl (loginUrlOf storeUrl) i (fuel + 1) currentUrl lastStatus =
          Except.ok ⟨storeUrl, AccountType.unknown, some 406, none,
            some ("Unexpected status 406 at " ++ currentUrl), none⟩) ∧
      (currentUrl ≠ loginUrlOf storeUrl →
        env.hostname currentUrl = Except.ok commonHost →
        env.hostname storeUrl = Except.ok commonHost →
        checkStoreGo env storeUrl (loginUrlOf storeUrl) i (fuel + 1) currentUrl lastStatus =
          Except.ok ⟨storeUrl, AccountType.unknown, some 406, none,
            some ("Unexpected status 406 at " ++ currentUrl), none⟩) := by
  intro env storeUrl i fuel currentUrl lastStatus resp redirectHost storeHost commonHost
  intro hf hst hloc
  have hfinal : checkStoreFinal storeUrl currentUrl resp =
      Except.ok ⟨storeUrl, AccountType.unknown, some 406, none,
        some ("Unexpected status 406 at " ++ currentUrl), none⟩ := by
    unfold checkStoreFinal
    rw [hst, if_neg (by norm_num), if_neg (by norm_num)]
    rfl
  refine ⟨fun hcur hh1 hh2 hne => ?_, fun hcur => ?_, fun hcur hh1 hh2 => ?_⟩
  · simp only [checkStoreGo, hf]
    rw [if_neg (by rcases hloc with h | h <;> simp [h]),
      if_neg (by rw [hst]; intro hc; omega),
      if_pos ⟨hst, hcur⟩, hh1]
    simp only []
    rw [hh2]
    simp only []
    rw [if_pos hne, hst]
  · simp only [checkStoreGo, hf]
    rw [if_neg (by rcases hloc with h | h <;> simp [h]),
      if_neg (by rw [hst]; intro hc; omega),
      if_neg (by intro hc; exact absurd hc.2 (by simp [hcur])),
      hfinal]
  · simp only [checkStoreGo, hf]
    rw [if_neg (by rcases hloc with h | h <;> simp [h]),
      if_neg (by rw [hst]; intro hc; omega),
      if_pos ⟨hst, hcur⟩, hh1]
    simp only []
    rw [hh2]
    simp only []
    rw [if_neg (by simp), hfinal]

theorem status406_custom_domain_branch_witness :
    checkStoreGo env406 "https://polder-ceramics.example"
        (loginUrlOf "https://polder-ceramics.example") 1 5
        "https://shop.polder-ceramics.example/login" 302 =
      Except.ok ⟨"https://polder-ceramics.example", AccountType.new, some 406, none,
        some "Redirected to custom account domain: shop.polder-ceramics.example", none⟩ :=
  ((status406_custom_domain_branch env406 "https://polder-ceramics.example" 1 4
      "https://shop.polder-ceramics.example/login" 302 resp406
      "shop.polder-ceramics.example" "polder-ceramics.example" ""
      rfl rfl (Or.inl rfl)).1 (by decide) rfl rfl (by decide))

lemma classifyFromBody_fields (u body : String) (s : Nat) :
    (classifyFromBody u body s).url = u ∧ (classifyFromBody u body s).status = some s ∧
    (classifyFromBody u body s).redirect = none ∧ (classifyFromBody u body s).error = none ∧
    (classifyFromBody u body s).type ≠ AccountType.error := by
  unfold classifyFromBody
  split_ifs <;> exact ⟨rfl, rfl, rfl, rfl, by simp⟩

lemma checkStoreFinal_ok_inv (storeUrl currentUrl : String) (resp : Response)
    (r : CheckResult) (h : checkStoreFinal storeUrl currentUrl resp = Except.ok r) :
    ResultInv storeUrl r := by
  unfold checkStoreFinal at h
  by_cases h200 : resp.status = 200
  · rw [if_pos h200] at h
    cases hb : resp.bodyText with
    | error msg => rw [hb] at h; exact absurd h (by simp)
    | ok body =>
      rw [hb] at h
      simp only [] at h
      by_cases hns : (isShopifyHeaders resp = false ∧ containsSubstr body "Shopify" = false ∧
          containsSubstr body "myshopify" = false)
      · rw [if_pos hns] at h
        injection h with h2
        subst h2
        exact ⟨rfl, by simp, rfl, by simp, by simp⟩
      · rw [if_neg hns] at h
        injection h with h2
        subst h2
        obtain ⟨f1, f2, f3, f4, f5⟩ := classifyFromBody_fields storeUrl body resp.status
        exact ⟨f1, f5, f4, by simp [f2], fun hc => absurd f3 hc⟩
  · rw [if_neg h200] at h
    by_cases h404 : resp.status = 404
    · rw [if_pos h404] at h
      injection h with h2
      subst h2
      exact ⟨rfl, by simp, rfl, by simp, by simp⟩
    · rw [if_neg h404] at h
      injection h with h2
      subst h2
      exact ⟨rfl, by simp, rfl, by simp, by simp⟩

lemma checkStoreGo_ok_inv (env : Env) (storeUrl loginU : String) :
    ∀ (fuel i : Nat) (currentUrl : String) (lastStatus : Nat) (r : CheckResult),
      checkStoreGo env storeUrl loginU i fuel currentUrl lastStatus = Except.ok r →
      ResultInv storeUrl r := by
  intro fuel
  induction fuel with
  | zero =>
    intro i cur last r h
    simp only [checkStoreGo] at h
    injection h with h2
    subst h2
    exact ⟨rfl, by simp, rfl, by simp, by simp⟩
  | succ fuel ih =>
    intro i cur last r h
    simp only [checkStoreGo] at h
    cases hf : env.fetch i cur with
    | error msg => rw [hf] at h; exact absurd h (by simp)
    | ok resp =>
      rw [hf] at h
      simp only [] at h
      by_cases hsig : (resp.location ≠ "" ∧ isNewAccountRedirect resp.location = true)
      · rw [if_pos hsig] at h
        injection h with h2
        subst h2
        exact ⟨rfl, by simp, rfl, by simp, fun _ => ⟨rfl, rfl⟩⟩
      · rw [if_neg hsig] at h
        by_cases h3xx : (300 ≤ resp.status ∧ resp.status < 400 ∧ resp.location ≠ "")
        · rw [if_pos h3xx] at h
          cases hr : (if startsWithStr resp.location "http" = true then Except.ok resp.location
              else env.resolveUrl resp.location cur) with
          | error msg => rw [hr] at h; exact absurd h (by simp)
          | ok nextUrl =>
            rw [hr] at h
            simp only [] at h
            exact ih (i + 1) nextUrl resp.status r h
        · rw [if_neg h3xx] at h
          by_cases h406 : (resp.status = 406 ∧ cur ≠ loginU)
          · rw [if_pos h406] at h
            cases hh1 : env.hostname cur with
            | error msg => rw [hh1] at h; exact absurd h (by simp)
            | ok rh =>
              rw [hh1] at h
              simp only [] at h
              cases hh2 : env.hostname storeUrl with
              | error msg => rw [hh2] at h; exact absurd h (by simp)
              | ok sh =>
                rw [hh2] at h
                simp only [] at h
                by_cases hne : rh ≠ sh
                · rw [if_pos hne] at h
                  injection h with h2
                  subst h2
                  exact ⟨rfl, by simp, rfl, by simp, by simp⟩
                · rw [if_neg hne] at h
                  exact checkStoreFinal_ok_inv storeUrl cur resp r h
          · rw [if_neg h406] at h
            exact checkStoreFinal_ok_inv storeUrl cur resp r h

/-- Claim C4: every CheckResult produced by checkStore satisfies the record
invariants: its type is one of the six enumerated values; the error field is
present exactly when the type is error; an error result has no status and no
note; and a present redirect field occurs only on a type new result with no
note, which is the shape produced solely by the Location-header inspection,
never by the body classifier or the 406 branch. -/
theorem checkResult_record_invariants :
    ∀ (env : Env) (storeUrl : String),
      ((checkStore env storeUrl).type = AccountType.new ∨
        (checkStore env storeUrl).type = AccountType.legacy ∨
        (checkStore env storeUrl).type = AccountType.passwordProtected ∨
        (checkStore env storeUrl).type = AccountType.notShopify ∨
        (checkStore env storeUrl).type = AccountType.unknown ∨
        (checkStore env storeUrl).type = AccountType.error) ∧
      ((checkStore env storeUrl).error ≠ none ↔
        (checkStore env storeUrl).type = AccountType.error) ∧
      ((checkStore env storeUrl).type = AccountType.error →
        (checkStore env storeUrl).status = none ∧ (checkStore env storeUrl).note = none) ∧
      ((checkStore env storeUrl).redirect ≠ none →
        (checkStore env storeUrl).type = AccountType.new ∧
        (checkStore env storeUrl).note = none) := by
  intro env storeUrl
  have henum : ∀ r : CheckResult, r.type = AccountType.new ∨ r.type = AccountType.legacy ∨
      r.type = AccountType.passwordProtected ∨ r.type = AccountType.notShopify ∨
      r.type = AccountType.unknown ∨ r.type = AccountType.error := by
    intro r
    cases h : r.type <;> simp
  cases hgo : checkStoreGo env storeUrl (loginUrlOf storeUrl) 0 6 (loginUrlOf storeUrl) 0 with
  | ok r =>
    have hcs : checkStore env storeUrl = r := by unfold checkStore; rw [hgo]
    obtain ⟨hu, ht, he, hs, hr⟩ :=
      checkStoreGo_ok_inv env storeUrl (loginUrlOf storeUrl) 6 0 (loginUrlOf storeUrl) 0 r hgo
    rw [hcs]
    exact ⟨henum r, ⟨fun hc => absurd he hc, fun hc => absurd hc ht⟩,
      fun hc => absurd hc ht, hr⟩
  | error msg =>
    have hcs : checkStore env storeUrl = errorResult storeUrl msg := by
      unfold checkStore; rw [hgo]
    rw [hcs]
    exact ⟨henum _, by simp [errorResult], by simp [errorResult], by simp [errorResult]⟩

theorem checkResult_record_invariants_witness :
    (checkStore env302 "https://ember-roastery.example").type = AccountType.new ∧
    (checkStore env302 "https://ember-roastery.example").note = none :=
  (checkResult_record_invariants env302 "https://ember-roastery.example").2.2.2 (by decide)

/-- Claim C10: the status field of a checkStore result is present exactly when
the type is not error; the url field of every result equals the input store
URL on every branch, never the redirect target; and every classifyFromBody
outcome carries the status it was given together with the input store URL. -/
theorem status_presence_and_url_echo :
    (∀ (env : Env) (storeUrl : String),
      ((checkStore env storeUrl).status ≠ none ↔
        (checkStore env storeUrl).type ≠ AccountType.error) ∧
      (checkStore env storeUrl).url = storeUrl) ∧
    (∀ (u body : String) (s : Nat),
      (classifyFromBody u body s).status = some s ∧ (classifyFromBody u body s).url = u) := by
  constructor
  · intro env storeUrl
    cases hgo : checkStoreGo env storeUrl (loginUrlOf storeUrl) 0 6 (loginUrlOf storeUrl) 0 with
    | ok r =>
      have hcs : checkStore env storeUrl = r := by unfold checkStore; rw [hgo]
      obtain ⟨hu, ht, _, hs, _⟩ :=
        checkStoreGo_ok_inv env storeUrl (loginUrlOf storeUrl) 6 0 (loginUrlOf storeUrl) 0 r hgo
      rw [hcs]
      exact ⟨⟨fun _ => ht, fun _ => hs⟩, hu⟩
    | error msg =>
      have hcs : checkStore env storeUrl = errorResult storeUrl msg := by
        unfold checkStore; rw [hgo]
      rw [hcs]
      exact ⟨by simp [errorResult], rfl⟩
  · intro u body s
    obtain ⟨f1, f2, _, _, _⟩ := classifyFromBody_fields u body s
    exact ⟨f2, f1⟩

theorem status_presence_and_url_echo_witness :
    (checkStore envThrow "https://maple-goods.example").url = "https://maple-goods.example" ∧
    (checkStore env404 "https://maple-goods.example").status ≠ none :=
  ⟨(status_presence_and_url_echo.1 envThrow "https://maple-goods.example").2,
   (status_presence_and_url_echo.1 env404 "https://maple-goods.example").1.mpr (by decide)⟩

lemma go_fetch_agree (env1 env2 : Env) (storeUrl loginU : String)
    (hres : env1.resolveUrl = env2.resolveUrl) (hhost : env1.hostname = env2.hostname) :
    ∀ (fuel i : Nat) (currentUrl : String) (lastStatus : Nat),
      (∀ j url, j < i + fuel → env1.fetch j url = env2.fetch j url) →
      checkStoreGo env1 storeUrl loginU i fuel currentUrl lastStatus =
        checkStoreGo env2 storeUrl loginU i fuel currentUrl lastStatus := by
  intro fuel
  induction fuel with
  | zero => intro i cur last _; rfl
  | succ fuel ih =>
    intro i cur last hf
    have hf0 : env1.fetch i cur = env2.fetch i cur := hf i cur (by omega)
    simp only [checkStoreGo, hf0]
    cases hfe : env2.fetch i cur with
    | error msg => rfl
    | ok resp =>
      simp only []
      by_cases hsig : (resp.location ≠ "" ∧ isNewAccountRedirect resp.location = true)
      · rw [if_pos hsig, if_pos hsig]
      · rw [if_neg hsig, if_neg hsig]
        by_cases h3xx : (300 ≤ resp.status ∧ resp.status < 400 ∧ resp.location ≠ "")
        · rw [if_pos h3xx, if_pos h3xx, hres]
          cases hr : (if startsWithStr resp.location "http" = true then Except.ok resp.location
              else env2.resolveUrl resp.location cur) with
          | error msg => rfl
          | ok nextUrl =>
            simp only []
            exact ih (i + 1) nextUrl resp.status (fun j url hj => hf j url (by omega))
        · rw [if_neg h3xx, if_neg h3xx]
          by_cases h406 : (resp.status = 406 ∧ cur ≠ loginU)
          · rw [if_pos h406, if_pos h406, hhost]
          · rw [if_neg h406, if_neg h406]

/-- Claim C5: checkStore consults the transport at most 6 times per
classification, so two environments agreeing on the first 6 fetches classify
identically; and when all 6 iterations receive a 3xx response with a non-
signal absolute Location, checkStore returns type unknown with the note Too
many redirects and the status of the last observed response. -/
theorem redirect_budget_and_exhaustion :
    (∀ (env1 env2 : Env) (storeUrl : String),
      env1.resolveUrl = env2.resolveUrl → env1.hostname = env2.hostname →
      (∀ j url, j < 6 → env1.fetch j url = env2.fetch j url) →
      checkStore env1 storeUrl = checkStore env2 storeUrl) ∧
    (∀ (env : Env) (storeUrl : String) (resp : Nat → Response),
      (∀ i url, i < 6 → env.fetch i url = Except.ok (resp i)) →
      (∀ i, i < 6 → 300 ≤ (resp i).status ∧ (resp i).status < 400 ∧
        (resp i).location ≠ "" ∧ isNewAccountRedirect (resp i).location = false ∧
        startsWithStr (resp i).location "http" = true) →
      checkStore env storeUrl =
        ⟨storeUrl, AccountType.unknown, some (resp 5).status, none,
          some "Too many redirects", none⟩) := by
  constructor
  · intro env1 env2 storeUrl hres hhost hf
    unfold checkStore
    rw [go_fetch_agree env1 env2 storeUrl (loginUrlOf storeUrl) hres hhost 6 0
      (loginUrlOf storeUrl) 0 (fun j url hj => hf j url (by omega))]
  · intro env storeUrl resp hf hr
    unfold checkStore
    have e0 : checkStoreGo env storeUrl (loginUrlOf storeUrl) 0 6 (loginUrlOf storeUrl) 0 =
        checkStoreGo env storeUrl (loginUrlOf storeUrl) 1 5 (resp 0).location (resp 0).status :=
      go_step_redirect env storeUrl (loginUrlOf storeUrl) 0 5 (loginUrlOf storeUrl) 0 (resp 0)
        (hf 0 _ (by omega)) (hr 0 (by omega)).2.2.1 (hr 0 (by omega)).2.2.2.1
        (hr 0 (by omega)).1 (hr 0 (by omega)).2.1 (hr 0 (by omega)).2.2.2.2
    have e1 : checkStoreGo env storeUrl (loginUrlOf storeUrl) 1 5 (resp 0).location (resp 0).status =
        checkStoreGo env storeUrl (loginUrlOf storeUrl) 2 4 (resp 1).location (resp 1).status :=
      go_step_redirect env storeUrl (loginUrlOf storeUrl) 1 4 (resp 0).location (resp 0).status (resp 1)
        (hf 1 _ (by omega)) (hr 1 (by omega)).2.2.1 (hr 1 (by omega)).2.2.2.1
        (hr 1 (by omega)).1 (hr 1 (by omega)).2.1 (hr 1 (by omega)).2.2.2.2
    have e2 : checkStoreGo env storeUrl (loginUrlOf storeUrl) 2 4 (resp 1).location (resp 1).status =
        checkStoreGo env storeUrl (loginUrlOf storeUrl) 3 3 (resp 2).location (resp 2).status :=
      go_step_redirect env storeUrl (loginUrlOf storeUrl) 2 3 (resp 1).location (resp 1).status (resp 2)
        (hf 2 _ (by omega)) (hr 2 (by omega)).2.2.1 (hr 2 (by omega)).2.2.2.1
        (hr 2 (by omega)).1 (hr 2 (by omega)).2.1 (hr 2 (by omega)).2.2.2.2
    have e3 : checkStoreGo env storeUrl (loginUrlOf storeUrl) 3 3 (resp 2).location (resp 2).status =
        checkStoreGo env storeUrl (loginUrlOf storeUrl) 4 2 (resp 3).location (resp 3).status :=
      go_step_redirect env storeUrl (loginUrlOf storeUrl) 3 2 (resp 2).location (resp 2).status (resp 3)
        (hf 3 _ (by omega)) (hr 3 (by omega)).2.2.1 (hr 3 (by omega)).2.2.2.1
        (hr 3 (by omega)).1 (hr 3 (by omega)).2.1 (hr 3 (by omega)).2.2.2.2
    have e4 : checkStoreGo env storeUrl (loginUrlOf storeUrl) 4 2 (resp 3).location (resp 3).status =
        checkStoreGo env storeUrl (loginUrlOf storeUrl) 5 1 (resp 4).location (resp 4).status :=
      go_step_redirect env storeUrl (loginUrlOf storeUrl) 4 1 (resp 3).location (resp 3).status (resp 4)
        (hf 4 _ (by omega)) (hr 4 (by omega)).2.2.1 (hr 4 (by omega)).2.2.2.1
        (hr 4 (by omega)).1 (hr 4 (by omega)).2.1 (hr 4 (by omega)).2.2.2.2
    have e5 : checkStoreGo env storeUrl (loginUrlOf storeUrl) 5 1 (resp 4).location (resp 4).status =
        checkStoreGo env storeUrl (loginUrlOf storeUrl) 6 0 (resp 5).location (resp 5).status :=
      go_step_redirect env storeUrl (loginUrlOf storeUrl) 5 0 (resp 4).location (resp 4).status (resp 5)
        (hf 5 _ (by omega)) (hr 5 (by omega)).2.2.1 (hr 5 (by omega)).2.2.2.1
        (hr 5 (by omega)).1 (hr 5 (by omega)).2.1 (hr 5 (by omega)).2.2.2.2
    rw [e0, e1, e2, e3, e4, e5]
    rfl

theorem redirect_budget_and_exhaustion_witness :
    checkStore envLoop "https://hollow-pines.example" =
      ⟨"https://hollow-pines.example", AccountType.unknown, some 302, none,
        some "Too many redirects", none⟩ :=
  redirect_budget_and_exhaustion.2 envLoop "https://hollow-pines.example"
    (fun _ => resp302plain) (fun _ _ _ => rfl)
    (fun i _ =>
      (by decide : 300 ≤ resp302plain.status ∧ resp302plain.status < 400 ∧
        resp302plain.location ≠ "" ∧ isNewAccountRedirect resp302plain.location = false ∧
        startsWithStr resp302plain.location "http" = true))

/-- Claim C9: the batch endpoint caps processing at 100 URLs: whenever splitting
and normalization yield more than 100 URLs, exactly the first 100 normalized
URLs, in order, are classified and streamed and the remainder are dropped. -/
theorem postResponse_caps_at_100 :
    ∀ (env : Env) (rawUrls : List String),
      100 < (rawUrls.flatMap parseUrls).length →
      postResponse env rawUrls =
        Except.ok (((rawUrls.flatMap parseUrls).take 100).map (checkStore env)) ∧
      (((rawUrls.flatMap parseUrls).take 100).map (checkStore env)).length = 100 := by
  intro env rawUrls h
  have hne : rawUrls ≠ [] := by
    intro hc
    subst hc
    simp at h
  have hlen : ((rawUrls.flatMap parseUrls).take 100).length = 100 := by
    rw [List.length_take]
    omega
  have hup : (rawUrls.flatMap parseUrls).take 100 ≠ [] := by
    intro hc
    rw [hc] at hlen
    simp at hlen
  constructor
  · unfold postResponse
    rw [if_neg hne, if_neg hup]
  · rw [List.length_map]
    exact hlen

set_option maxRecDepth 8000 in
theorem postResponse_caps_at_100_witness :
    100 < ((List.replicate 150 "http://a").flatMap parseUrls).length ∧
    (postResponse envThrow (List.replicate 150 "http://a") =
      Except.ok ((((List.replicate 150 "http://a").flatMap parseUrls).take 100).map
        (checkStore envThrow)) ∧
      ((((List.replicate 150 "http://a").flatMap parseUrls).take 100).map
        (checkStore envThrow)).length = 100) :=
  ⟨by decide, postResponse_caps_at_100 envThrow (List.replicate 150 "http://a") (by decide)⟩

end ShopifyChecker
